import Mathlib

/-!
# SplatsRenderer: the `SplatViewer` class of `spark-js/main.js`

A shallow embedding of the viewer's camera controller (`onMouseMove`, `onKeyDown`,
`onKeyUp`, `updateCamera`, `resetCamera`) and of its load lifecycle
(`loadSplatFile`, `loadSplatFromUrl`, `createSplatMesh`, `showLoading`,
`hideLoading`, `showError`).

Numbers are elements of a linearly ordered field `α`: arithmetic is exact, the
rounding of IEEE doubles is not modelled.  The functions of the JavaScript `Math`
object that the code calls are a parameter (`JSMath`), so every definition can be
evaluated over `ℚ`; the theorems that need square roots or trigonometry
instantiate the parameter with the real functions.
-/

namespace Splats

/-- The members of the JavaScript `Math` object that `main.js` and the three.js
methods it calls use: `Math.PI`, `Math.sqrt`, `Math.sin`, `Math.cos`. -/
structure JSMath (α : Type) where
  PI : α
  sqrt : α → α
  sin : α → α
  cos : α → α

/-- A `THREE.Vector3`. -/
structure Vector3 (α : Type) where
  x : α
  y : α
  z : α
deriving DecidableEq

/-- A `THREE.Quaternion`, components in the order of `Quaternion.set(x, y, z, w)`. -/
structure Quaternion (α : Type) where
  x : α
  y : α
  z : α
  w : α
deriving DecidableEq

section Three

variable {α : Type} [LinearOrderedField α]

/-- `new THREE.Vector3()`, also `v.set(0, 0, 0)`. -/
def Vector3.zero : Vector3 α := ⟨0, 0, 0⟩

/-- `Vector3.length()`: `Math.sqrt(x*x + y*y + z*z)`. -/
def Vector3.length (m : JSMath α) (a : Vector3 α) : α := m.sqrt (a.x * a.x + a.y * a.y + a.z * a.z)

/-- `Vector3.applyQuaternion(q)`: the vector rotated by `q`. -/
def Vector3.applyQuaternion (v : Vector3 α) (q : Quaternion α) : Vector3 α :=
  let tx := 2 * (q.y * v.z - q.z * v.y)
  let ty := 2 * (q.z * v.x - q.x * v.z)
  let tz := 2 * (q.x * v.y - q.y * v.x)
  ⟨v.x + q.w * tx + q.y * tz - q.z * ty,
   v.y + q.w * ty + q.z * tx - q.x * tz,
   v.z + q.w * tz + q.x * ty - q.y * tx⟩

/-- The quaternion of a freshly constructed `Object3D`, which is also what
`rotation.set(0, 0, 0)` leaves in `quaternion` (`cos 0 = 1`, `sin 0 = 0`). -/
def Quaternion.identity : Quaternion α := ⟨0, 0, 0, 1⟩

/-- `Quaternion.setFromEuler(new THREE.Euler(x, y, z, "YXZ"))`. -/
def Quaternion.setFromEulerYXZ (m : JSMath α) (x y z : α) : Quaternion α :=
  let c1 := m.cos (x / 2)
  let c2 := m.cos (y / 2)
  let c3 := m.cos (z / 2)
  let s1 := m.sin (x / 2)
  let s2 := m.sin (y / 2)
  let s3 := m.sin (z / 2)
  ⟨s1 * c2 * c3 + c1 * s2 * s3,
   c1 * s2 * c3 - s1 * c2 * s3,
   c1 * c2 * s3 - s1 * s2 * c3,
   c1 * c2 * c3 + s1 * s2 * s3⟩

/-- The `THREE.PerspectiveCamera` as far as the viewer reads and writes it. -/
structure Camera (α : Type) where
  position : Vector3 α
  quaternion : Quaternion α
deriving DecidableEq

/-- `camera.up`, which is `Object3D.DEFAULT_UP` and is never assigned. -/
def Camera.up : Vector3 α := ⟨0, 1, 0⟩

end Three

/-- The `moveState` object of the viewer. -/
structure MoveState where
  forward : Bool
  backward : Bool
  left : Bool
  right : Bool
  up : Bool
  down : Bool
deriving DecidableEq

/-- A `SplatMesh` object.  `id` stands for the identity of the JavaScript object;
`url` is the constructor argument. -/
structure SplatMesh (α : Type) where
  id : Nat
  url : String
  quaternion : Quaternion α
  position : Vector3 α
deriving DecidableEq

/-- The objects that the viewer puts into `scene.children`. -/
inductive Object3D (α : Type) where
  | ambientLight : Object3D α
  | directionalLight : Object3D α
  | gridHelper : Object3D α
  | axesHelper : Object3D α
  | splat : SplatMesh α → Object3D α
deriving DecidableEq

/-- The fields of a `SplatViewer` once `initScene` has run; `scene` is
`scene.children`. -/
structure SplatViewer (α : Type) where
  scene : List (Object3D α)
  camera : Camera α
  splatMesh : Option (SplatMesh α)
  moveState : MoveState
  cameraVelocity : Vector3 α
  cameraDirection : Vector3 α
  moveSpeed : α
  isMouseDown : Bool
  previousMouseX : α
  previousMouseY : α
  pitch : α
  yaw : α
  mouseSensitivity : α

/-- The `clientX` and `clientY` of a mouse event. -/
structure MouseEvent (α : Type) where
  clientX : α
  clientY : α

section Controller

variable {α : Type} [LinearOrderedField α]

/-- The viewer after `constructor` and `initScene`: the constructor's field
values, the scene with the two lights, the grid and the axes, and the camera at
eye level. -/
def SplatViewer.initial : SplatViewer α where
  scene := [Object3D.ambientLight, Object3D.directionalLight, Object3D.gridHelper,
    Object3D.axesHelper]
  camera := ⟨⟨0, 17 / 10, 5⟩, Quaternion.identity⟩
  splatMesh := none
  moveState := ⟨false, false, false, false, false, false⟩
  cameraVelocity := Vector3.zero
  cameraDirection := Vector3.zero
  moveSpeed := 5
  isMouseDown := false
  previousMouseX := 0
  previousMouseY := 0
  pitch := 0
  yaw := 0
  mouseSensitivity := 2 / 1000

/-- The `mousedown` listener for the left button (`e.button === 0`). -/
def SplatViewer.mouseDown (s : SplatViewer α) (e : MouseEvent α) : SplatViewer α :=
  { s with isMouseDown := true, previousMouseX := e.clientX, previousMouseY := e.clientY }

/-- The `mouseup` listener for the left button. -/
def SplatViewer.mouseUp (s : SplatViewer α) : SplatViewer α :=
  { s with isMouseDown := false }

/-- `onMouseMove(e)`. -/
def SplatViewer.onMouseMove (m : JSMath α) (s : SplatViewer α) (e : MouseEvent α) :
    SplatViewer α :=
  if !s.isMouseDown then s
  else
    let deltaX := e.clientX - s.previousMouseX
    let deltaY := e.clientY - s.previousMouseY
    let yaw := s.yaw - deltaX * s.mouseSensitivity
    let pitch := s.pitch - deltaY * s.mouseSensitivity
    let pitch := max (-m.PI / 2) (min (m.PI / 2) pitch)
    { s with
      yaw := yaw
      pitch := pitch
      camera := { s.camera with quaternion := Quaternion.setFromEulerYXZ m pitch yaw 0 }
      previousMouseX := e.clientX
      previousMouseY := e.clientY }

/-- `resetCamera()`. -/
def SplatViewer.resetCamera (s : SplatViewer α) : SplatViewer α :=
  { s with
    camera := ⟨⟨0, 17 / 10, 5⟩, Quaternion.identity⟩
    pitch := 0
    yaw := 0 }

end Controller

/-- What the `#loading` element shows: the markup of the page, or the markup that
`showError` writes, which embeds `message`. -/
inductive LoadingContent where
  | pageMarkup : LoadingContent
  | errorMarkup : String → LoadingContent
deriving DecidableEq

/-- The `#loading` element: `style.display` and `innerHTML`. -/
structure LoadingElement where
  display : String
  innerHTML : LoadingContent
deriving DecidableEq

/-- A call made on an object outside the viewer, in the order made. -/
inductive Call where
  | sceneRemove : Nat → Call
  | sceneAdd : Nat → Call
  | createObjectURL : String → Call
  | revokeObjectURL : String → Call
  | consoleError : String → Call
deriving DecidableEq

/-- A `File` picked in the file input. -/
structure File where
  name : String
deriving DecidableEq

/-- The viewer together with the browser state its load functions touch:
the `#loading` element, the object URLs that are live (created and not yet
revoked), the counters that make new object URLs and new object identities
distinct, and the log of outside calls. -/
structure Page (α : Type) where
  viewer : SplatViewer α
  loading : LoadingElement
  objectUrls : List String
  nextObjectUrl : Nat
  nextObjectId : Nat
  calls : List Call

/-- The load status the page shows, read off the `#loading` element. -/
inductive Status where
  | idle : Status
  | loading : Status
  | error : String → Status
deriving DecidableEq

section Loading

variable {α : Type} [LinearOrderedField α]

/-- `Quaternion.set(x, y, z, w)`. -/
def Quaternion.set (_q : Quaternion α) (x y z w : α) : Quaternion α := ⟨x, y, z, w⟩

/-- `Vector3.set(x, y, z)`. -/
def Vector3.set (_v : Vector3 α) (x y z : α) : Vector3 α := ⟨x, y, z⟩

/-- The splat meshes among `scene.children`. -/
def splatHandles (scene : List (Object3D α)) : List (SplatMesh α) :=
  scene.filterMap fun o =>
    match o with
    | Object3D.splat mesh => some mesh
    | _ => none

/-- `scene.remove(object)`: the object is spliced out of `children` where
`indexOf` finds it. -/
def sceneRemove (scene : List (Object3D α)) (object : Object3D α) : List (Object3D α) :=
  scene.erase object

/-- `scene.add(object)` for an object without a parent: pushed onto `children`. -/
def sceneAdd (scene : List (Object3D α)) (object : Object3D α) : List (Object3D α) :=
  scene ++ [object]

/-- `showLoading()`. -/
def Page.showLoading (w : Page α) : Page α :=
  { w with loading := { w.loading with display := "flex" } }

/-- `hideLoading()`. -/
def Page.hideLoading (w : Page α) : Page α :=
  { w with loading := { w.loading with display := "none" } }

/-- `showError(message)`. -/
def Page.showError (w : Page α) (message : String) : Page α :=
  { w with loading := ⟨"flex", LoadingContent.errorMarkup message⟩ }

/-- The status a user sees: nothing when the element is not displayed, else the
error with its message when `showError` wrote the markup, else loading. -/
def Page.status (w : Page α) : Status :=
  if w.loading.display = "flex" then
    match w.loading.innerHTML with
    | LoadingContent.errorMarkup message => Status.error message
    | LoadingContent.pageMarkup => Status.loading
  else Status.idle

/-- `URL.createObjectURL(file)`: a new URL, live until revoked. -/
def Page.createObjectURL (w : Page α) (_file : File) : Page α × String :=
  let objectUrl := "blob:" ++ toString w.nextObjectUrl
  ({ w with
     objectUrls := w.objectUrls ++ [objectUrl]
     nextObjectUrl := w.nextObjectUrl + 1
     calls := w.calls ++ [Call.createObjectURL objectUrl] }, objectUrl)

/-- `URL.revokeObjectURL(objectUrl)`. -/
def Page.revokeObjectURL (w : Page α) (objectUrl : String) : Page α :=
  { w with
    objectUrls := w.objectUrls.filter fun u => u ≠ objectUrl
    calls := w.calls ++ [Call.revokeObjectURL objectUrl] }

/-- `console.error(text, error)`. -/
def Page.consoleError (w : Page α) (text : String) : Page α :=
  { w with calls := w.calls ++ [Call.consoleError text] }

/-- `createSplatMesh(url)`.  `construct` is what `new SplatMesh(...)` does in this
call: return the new object or throw.  The body has no `await`, so the whole of
it runs when it is called; the second component is how the returned promise
settles.  What was assigned before a throw stays assigned. -/
def Page.createSplatMesh (w : Page α) (url : String) (construct : Except String Unit) :
    Page α × Except String Unit :=
  let w :=
    match w.viewer.splatMesh with
    | some old =>
      { w with
        viewer := { w.viewer with scene := sceneRemove w.viewer.scene (Object3D.splat old) }
        calls := w.calls ++ [Call.sceneRemove old.id] }
    | none => w
  match construct with
  | Except.error error => (w, Except.error error)
  | Except.ok _ =>
    let mesh : SplatMesh α := ⟨w.nextObjectId, url, Quaternion.identity, Vector3.zero⟩
    let mesh := { mesh with quaternion := mesh.quaternion.set 1 0 0 0 }
    let mesh := { mesh with position := mesh.position.set 0 0 0 }
    let w : Page α :=
      { w with
        viewer :=
          { w.viewer with
            splatMesh := some mesh
            scene := sceneAdd w.viewer.scene (Object3D.splat mesh) }
        nextObjectId := w.nextObjectId + 1
        calls := w.calls ++ [Call.sceneAdd mesh.id] }
    ({ w with viewer := w.viewer.resetCamera }, Except.ok ())

/-- A load function suspended at `await this.createSplatMesh(...)`: which function,
its local `objectUrl` if it has one, and how the awaited promise settled. -/
inductive Suspended where
  | fromUrl : Except String Unit → Suspended
  | fromFile : String → Except String Unit → Suspended

/-- `loadSplatFromUrl(url)` up to its `await`. -/
def Page.loadSplatFromUrlStart (w : Page α) (url : String) (construct : Except String Unit) :
    Page α × Suspended :=
  let w := w.showLoading
  let (w, settled) := w.createSplatMesh url construct
  (w, Suspended.fromUrl settled)

/-- `loadSplatFile(file)` up to its `await`; nothing is done and nothing is
suspended when `file` is missing. -/
def Page.loadSplatFileStart (w : Page α) (file : Option File) (construct : Except String Unit) :
    Page α × Option Suspended :=
  match file with
  | none => (w, none)
  | some file =>
    let w := w.showLoading
    let (w, objectUrl) := w.createObjectURL file
    let (w, settled) := w.createSplatMesh objectUrl construct
    (w, some (Suspended.fromFile objectUrl settled))

/-- The rest of a load function after its `await`: the remaining statements of the
`try` block when the promise was fulfilled, the `catch` block when it was
rejected. -/
def Page.resume (w : Page α) : Suspended → Page α
  | Suspended.fromUrl (Except.ok _) => w.hideLoading
  | Suspended.fromUrl (Except.error _) =>
    (w.consoleError "Failed to load splat from URL:").showError "Failed to load from URL"
  | Suspended.fromFile objectUrl (Except.ok _) => (w.revokeObjectURL objectUrl).hideLoading
  | Suspended.fromFile _ (Except.error _) =>
    (w.consoleError "Failed to load splat file:").showError "Failed to load SPZ file"

/-- `loadSplatFromUrl(url)` run to its end with nothing in between. -/
def Page.loadSplatFromUrl (w : Page α) (url : String) (construct : Except String Unit) :
    Page α :=
  let (w, suspended) := w.loadSplatFromUrlStart url construct
  w.resume suspended

/-- `loadSplatFile(file)` run to its end with nothing in between. -/
def Page.loadSplatFile (w : Page α) (file : Option File) (construct : Except String Unit) :
    Page α :=
  match w.loadSplatFileStart file construct with
  | (w, some suspended) => w.resume suspended
  | (w, none) => w

/-- A load as the user issues it: the function called, its argument, and what the
mesh constructor does in it. -/
inductive LoadRequest where
  | url : String → Except String Unit → LoadRequest
  | file : File → Except String Unit → LoadRequest

/-- The page and the load functions that are suspended, oldest first. -/
structure Session (α : Type) where
  page : Page α
  suspended : List Suspended

/-- What the event loop runs next: a new load call, or the continuation of the
suspended load at index `k`. -/
inductive Turn where
  | issue : LoadRequest → Turn
  | complete : Nat → Turn

/-- One turn of the event loop. -/
def Session.turn (s : Session α) : Turn → Session α
  | Turn.issue (LoadRequest.url url construct) =>
    let (w, suspended) := s.page.loadSplatFromUrlStart url construct
    ⟨w, s.suspended ++ [suspended]⟩
  | Turn.issue (LoadRequest.file file construct) =>
    match s.page.loadSplatFileStart (some file) construct with
    | (w, some suspended) => ⟨w, s.suspended ++ [suspended]⟩
    | (w, none) => ⟨w, s.suspended⟩
  | Turn.complete k =>
    match s.suspended.get? k with
    | some suspended => ⟨s.page.resume suspended, s.suspended.eraseIdx k⟩
    | none => s

/-- A sequence of turns, run in order. -/
def Session.run (s : Session α) (turns : List Turn) : Session α :=
  turns.foldl Session.turn s

end Loading

section Scenarios

variable {α : Type} [LinearOrderedField α]

/-- The page when the viewer has been constructed and `initScene` has run:
no object URL is live and nothing has been called yet.  The `#loading` element is
that of the page. -/
def Page.initial (loading : LoadingElement) : Page α where
  viewer := SplatViewer.initial
  loading := loading
  objectUrls := []
  nextObjectUrl := 0
  nextObjectId := 0
  calls := []

/-- The scene holds the current splat mesh and no other. -/
def Page.Consistent (w : Page α) : Prop :=
  splatHandles w.viewer.scene = w.viewer.splatMesh.toList

/-- Whether the mesh constructor returns in this load. -/
def LoadRequest.succeeds : LoadRequest → Bool
  | LoadRequest.url _ (Except.ok _) => true
  | LoadRequest.file _ (Except.ok _) => true
  | _ => false

/-- A page over `ℚ` for evaluating the load functions: the initial page with the
`#loading` element displayed. -/
def demoPage : Page ℚ := Page.initial ⟨"flex", LoadingContent.pageMarkup⟩

/-- The page `demoPage` after the startup load has succeeded. -/
def demoPageLoaded : Page ℚ := demoPage.loadSplatFromUrl "butterfly.spz" (Except.ok ())

end Scenarios

section SceneFacts

variable {α : Type}

/-- Adding a splat mesh to the scene appends it to the splat meshes of the scene. -/
theorem splatHandles_append (scene : List (Object3D α)) (mesh : SplatMesh α) :
    splatHandles (sceneAdd scene (Object3D.splat mesh)) = splatHandles scene ++ [mesh] := by
  simp [splatHandles, sceneAdd, List.filterMap_append]

/-- The continuation of a load after its `await` leaves the viewer and the object
counter as they are. -/
theorem resume_viewer (w : Page α) (k : Suspended) :
    (w.resume k).viewer = w.viewer ∧ (w.resume k).nextObjectId = w.nextObjectId ∧
      (w.Consistent → (w.resume k).Consistent) := by
  unfold Page.Consistent
  rcases k with (r | r) | ⟨u, (r | r)⟩ <;>
    simp [Page.resume, Page.hideLoading, Page.showError, Page.consoleError,
      Page.revokeObjectURL]

end SceneFacts

section PitchClamp

variable {α : Type} [LinearOrderedField α]

/-- One `onMouseMove` keeps the pitch in the clamp interval. -/
theorem onMouseMove_pitch_step (m : JSMath α) (s : SplatViewer α) (e : MouseEvent α)
    (hs : -m.PI / 2 ≤ s.pitch ∧ s.pitch ≤ m.PI / 2) :
    -m.PI / 2 ≤ (s.onMouseMove m e).pitch ∧ (s.onMouseMove m e).pitch ≤ m.PI / 2 := by
  have hle : -m.PI / 2 ≤ m.PI / 2 := le_trans hs.1 hs.2
  unfold SplatViewer.onMouseMove
  by_cases hdown : s.isMouseDown = true
  · simp only [hdown, Bool.not_true, Bool.false_eq_true, if_false]
    exact ⟨le_max_left _ _, max_le hle (min_le_left _ _)⟩
  · simp only [Bool.not_eq_true] at hdown
    simp only [hdown, Bool.not_false, if_true]
    exact hs

/-- The pitch that `resetCamera` stores lies in the clamp interval whenever that
interval is inhabited. -/
theorem resetCamera_pitch_in_range (m : JSMath α) (s t : SplatViewer α)
    (hs : -m.PI / 2 ≤ s.pitch ∧ s.pitch ≤ m.PI / 2) :
    -m.PI / 2 ≤ t.resetCamera.pitch ∧ t.resetCamera.pitch ≤ m.PI / 2 := by
  have hle : -m.PI / 2 ≤ m.PI / 2 := le_trans hs.1 hs.2
  have h0 : 0 ≤ m.PI := by
    rw [neg_div] at hle
    have : 0 ≤ m.PI / 2 := by linarith
    linarith
  simp only [SplatViewer.resetCamera]
  constructor
  · rw [neg_div]
    linarith
  · linarith

/-- C1: from every state whose pitch lies in `[-Math.PI/2, Math.PI/2]`, after each
event of every finite sequence of mouse events handled by `onMouseMove`, whatever
their deltas, the stored pitch lies in `[-Math.PI/2, Math.PI/2]`; so does the pitch
that `resetCamera` stores in any of these states. -/
theorem onMouseMove_pitch_clamped (m : JSMath α) (s : SplatViewer α)
    (hs : -m.PI / 2 ≤ s.pitch ∧ s.pitch ≤ m.PI / 2) (events : List (MouseEvent α)) :
    ∀ t ∈ List.scanl (SplatViewer.onMouseMove m) s events,
      (-m.PI / 2 ≤ t.pitch ∧ t.pitch ≤ m.PI / 2) ∧
      (-m.PI / 2 ≤ t.resetCamera.pitch ∧ t.resetCamera.pitch ≤ m.PI / 2) := by
  induction events generalizing s with
  | nil =>
    intro t ht
    simp only [List.scanl_nil, List.mem_singleton] at ht
    subst ht
    exact ⟨hs, resetCamera_pitch_in_range m t t hs⟩
  | cons e rest ih =>
    intro t ht
    rw [List.scanl_cons, List.mem_append, List.mem_singleton] at ht
    rcases ht with ht | ht
    · subst ht
      exact ⟨hs, resetCamera_pitch_in_range m t t hs⟩
    · exact ih (s.onMouseMove m e) (onMouseMove_pitch_step m s e hs) t ht

end PitchClamp

section YawAndVelocity

variable {α : Type} [LinearOrderedField α]

end YawAndVelocity

section Accumulation

variable {α : Type} [LinearOrderedField α]

end Accumulation

section SceneHandles

variable {α : Type} [LinearOrderedField α]

/-- Removing the only splat mesh of the scene leaves no splat mesh in it. -/
theorem splatHandles_remove (scene : List (Object3D α)) (old : SplatMesh α)
    (h : splatHandles scene = [old]) :
    splatHandles (sceneRemove scene (Object3D.splat old)) = [] := by
  induction scene with
  | nil => simp [splatHandles] at h
  | cons o rest ih =>
    by_cases ho : o = Object3D.splat old
    · subst ho
      simp only [sceneRemove, List.erase_cons_head]
      simpa [splatHandles] using h
    · have hne : (o == Object3D.splat old) = false := by simpa using ho
      simp only [sceneRemove, List.erase_cons, hne]
      cases o with
      | splat mesh =>
        exfalso
        simp [splatHandles] at h
        exact ho (by rw [h.1])
      | ambientLight => exact ih (by simpa [splatHandles] using h)
      | directionalLight => exact ih (by simpa [splatHandles] using h)
      | gridHelper => exact ih (by simpa [splatHandles] using h)
      | axesHelper => exact ih (by simpa [splatHandles] using h)

end SceneHandles

section MeshTransform

variable {α : Type} [LinearOrderedField α]

/-- A successful `createSplatMesh` keeps the scene and `this.splatMesh` in step and
makes the new mesh current. -/
theorem createSplatMesh_ok_consistent (w : Page α) (url : String) (h : w.Consistent) :
    (w.createSplatMesh url (Except.ok ())).1.Consistent ∧
      (w.createSplatMesh url (Except.ok ())).1.viewer.splatMesh =
        some ⟨w.nextObjectId, url, ⟨1, 0, 0, 0⟩, ⟨0, 0, 0⟩⟩ ∧
      (w.createSplatMesh url (Except.ok ())).1.nextObjectId = w.nextObjectId + 1 := by
  unfold Page.Consistent at h
  cases hm : w.viewer.splatMesh with
  | none =>
    rw [hm] at h
    simp [Page.createSplatMesh, Page.Consistent, hm, SplatViewer.resetCamera,
      splatHandles_append, h, Quaternion.set, Vector3.set]
  | some old =>
    rw [hm] at h
    have hr := splatHandles_remove w.viewer.scene old h
    simp [Page.createSplatMesh, Page.Consistent, hm, SplatViewer.resetCamera,
      splatHandles_append, hr, Quaternion.set, Vector3.set]

/-- C7 as the code has it: every asset handle produced by a successful
`createSplatMesh` is the current mesh, carries the requested url, has position
`(0, 0, 0)` and the quaternion `(x, y, z, w) = (1, 0, 0, 0)`, which is the half turn
about the x axis: it rotates every vector `(x, y, z)` to `(x, -y, -z)`. -/
theorem createSplatMesh_transform (w : Page α) (url : String) :
    ∃ mesh : SplatMesh α,
      (w.createSplatMesh url (Except.ok ())).1.viewer.splatMesh = some mesh ∧
      (w.createSplatMesh url (Except.ok ())).2 = Except.ok () ∧
      Object3D.splat mesh ∈ (w.createSplatMesh url (Except.ok ())).1.viewer.scene ∧
      mesh.url = url ∧
      mesh.position = ⟨0, 0, 0⟩ ∧
      mesh.quaternion = ⟨1, 0, 0, 0⟩ ∧
      ∀ v : Vector3 α, v.applyQuaternion mesh.quaternion = ⟨v.x, -v.y, -v.z⟩ := by
  refine ⟨⟨w.nextObjectId, url, ⟨1, 0, 0, 0⟩, ⟨0, 0, 0⟩⟩, ?_, ?_, ?_, rfl, rfl, rfl, ?_⟩
  · cases hm : w.viewer.splatMesh <;>
      simp [Page.createSplatMesh, hm, SplatViewer.resetCamera, Quaternion.set, Vector3.set]
  · cases hm : w.viewer.splatMesh <;> simp [Page.createSplatMesh, hm]
  · cases hm : w.viewer.splatMesh <;>
      simp [Page.createSplatMesh, hm, SplatViewer.resetCamera, Quaternion.set, Vector3.set,
        sceneAdd]
  · intro v
    simp only [Vector3.applyQuaternion]
    congr 1 <;> ring

/-- C7 fails as stated: the handle that `createSplatMesh` produces on the initial
page has the quaternion `(1, 0, 0, 0)`, not the identity `(0, 0, 0, 1)`, and it
rotates the vector `(0, 1, 0)` to `(0, -1, 0)`. -/
theorem createSplatMesh_not_identity :
    (((Page.initial ⟨"flex", LoadingContent.pageMarkup⟩ : Page ℚ).createSplatMesh
        "butterfly.spz" (Except.ok ())).1.viewer.splatMesh.map fun mesh => mesh.quaternion) =
      some ⟨1, 0, 0, 0⟩ ∧
    (⟨1, 0, 0, 0⟩ : Quaternion ℚ) ≠ ⟨0, 0, 0, 1⟩ ∧
    (((Page.initial ⟨"flex", LoadingContent.pageMarkup⟩ : Page ℚ).createSplatMesh
        "butterfly.spz" (Except.ok ())).1.viewer.splatMesh.map fun mesh =>
          Vector3.applyQuaternion ⟨0, 1, 0⟩ mesh.quaternion) = some ⟨0, -1, 0⟩ ∧
    (⟨0, -1, 0⟩ : Vector3 ℚ) ≠ ⟨0, 1, 0⟩ := by
  refine ⟨?_, ?_, ?_, ?_⟩
  · simp [Page.createSplatMesh, Page.initial, SplatViewer.initial, SplatViewer.resetCamera,
      Quaternion.set]
  · decide
  · simp [Page.createSplatMesh, Page.initial, SplatViewer.initial, SplatViewer.resetCamera,
      Quaternion.set, Vector3.applyQuaternion]
    norm_num
  · decide

end MeshTransform

section SingleHandle

variable {α : Type} [LinearOrderedField α]

/-- Any number of successful `createSplatMesh` calls keep the scene and `this.splatMesh` in step. -/
theorem foldl_createSplatMesh_consistent (urls : List String) (w : Page α) (h : w.Consistent) :
    (urls.foldl (fun (p : Page α) url => (p.createSplatMesh url (Except.ok ())).1) w).Consistent := by
  induction urls generalizing w with
  | nil => exact h
  | cons url rest ih =>
    simp only [List.foldl_cons]
    exact ih _ (createSplatMesh_ok_consistent w url h).1

/-- C4: in every state reached from the freshly constructed viewer by a sequence
of successful `createSplatMesh` calls, the scene holds at most one splat mesh,
the splat meshes in the scene are exactly `this.splatMesh` (none when it is
null), after at least one call `this.splatMesh` is the mesh created by the last
call, and the first call makes one outside call, a `scene.add`, and no
`scene.remove`. -/
theorem createSplatMesh_single_handle (w : Page α) (hw : w.viewer = SplatViewer.initial)
    (urls : List String) :
    let reached := urls.foldl (fun (p : Page α) url => (p.createSplatMesh url (Except.ok ())).1) w
    (splatHandles reached.viewer.scene).length ≤ 1 ∧
    splatHandles reached.viewer.scene = reached.viewer.splatMesh.toList ∧
    (∀ rest url, urls = rest ++ [url] →
      ∃ mesh : SplatMesh α, reached.viewer.splatMesh = some mesh ∧ mesh.url = url ∧
        mesh.id + 1 = reached.nextObjectId) ∧
    (∀ url, (w.createSplatMesh url (Except.ok ())).1.calls =
      w.calls ++ [Call.sceneAdd w.nextObjectId]) := by
  intro reached
  have hc : w.Consistent := by
    simp [Page.Consistent, hw, SplatViewer.initial, splatHandles]
  have hr : reached.Consistent := foldl_createSplatMesh_consistent urls w hc
  refine ⟨?_, hr, ?_, ?_⟩
  · rw [hr]
    cases reached.viewer.splatMesh <;> simp
  · intro rest url hurls
    have hrest := foldl_createSplatMesh_consistent rest w hc
    have hstep := createSplatMesh_ok_consistent _ url hrest
    refine ⟨⟨(rest.foldl (fun (p : Page α) url =>
      (p.createSplatMesh url (Except.ok ())).1) w).nextObjectId, url, ⟨1, 0, 0, 0⟩, ⟨0, 0, 0⟩⟩,
      ?_, rfl, ?_⟩
    · simp only [reached, hurls, List.foldl_append, List.foldl_cons, List.foldl_nil]
      exact hstep.2.1
    · simp only [reached, hurls, List.foldl_append, List.foldl_cons, List.foldl_nil]
      exact hstep.2.2.symm
  · intro url
    simp [Page.createSplatMesh, hw, SplatViewer.initial]

end SingleHandle

section LoadFailure

variable {α : Type} [LinearOrderedField α]

/-- A `createSplatMesh` whose constructor throws: the old mesh is gone from the
scene; `this.splatMesh`, the `#loading` element and the live object URLs are as
before. -/
theorem createSplatMesh_error (w : Page α) (url error : String) (h : w.Consistent) :
    (w.createSplatMesh url (Except.error error)).1.viewer.splatMesh = w.viewer.splatMesh ∧
      splatHandles (w.createSplatMesh url (Except.error error)).1.viewer.scene = [] ∧
      (w.createSplatMesh url (Except.error error)).2 = Except.error error ∧
      (w.createSplatMesh url (Except.error error)).1.loading = w.loading ∧
      (w.createSplatMesh url (Except.error error)).1.objectUrls = w.objectUrls := by
  unfold Page.Consistent at h
  cases hm : w.viewer.splatMesh with
  | none =>
    rw [hm] at h
    simp [Page.createSplatMesh, hm, h]
  | some old =>
    rw [hm] at h
    have hr := splatHandles_remove w.viewer.scene old h
    simp [Page.createSplatMesh, hm, hr]

/-- C3 as the code has it: when the mesh construction inside `loadSplatFromUrl` or
`loadSplatFile` fails, `this.splatMesh` still refers to the asset that was current
before the load, the scene holds no splat mesh any more (the previous asset was
removed before the constructor ran), and the status shown is the error state with
the non-empty message of that load function. -/
theorem load_failure_state (w : Page α) (hw : w.Consistent) (url : String) (file : File)
    (error : String) :
    ((w.loadSplatFromUrl url (Except.error error)).viewer.splatMesh = w.viewer.splatMesh ∧
      splatHandles (w.loadSplatFromUrl url (Except.error error)).viewer.scene = [] ∧
      (w.loadSplatFromUrl url (Except.error error)).status =
        Status.error "Failed to load from URL" ∧
      "Failed to load from URL" ≠ "") ∧
    ((w.loadSplatFile (some file) (Except.error error)).viewer.splatMesh = w.viewer.splatMesh ∧
      splatHandles (w.loadSplatFile (some file) (Except.error error)).viewer.scene = [] ∧
      (w.loadSplatFile (some file) (Except.error error)).status =
        Status.error "Failed to load SPZ file" ∧
      "Failed to load SPZ file" ≠ "") := by
  constructor
  · have hs : w.showLoading.Consistent := hw
    have h := createSplatMesh_error w.showLoading url error hs
    simp only [Page.loadSplatFromUrl, Page.loadSplatFromUrlStart, h.2.2.1, Page.resume,
      Page.showError, Page.consoleError, Page.status]
    exact ⟨h.1, h.2.1, by simp, by decide⟩
  · have hs : (w.showLoading.createObjectURL file).1.Consistent := hw
    have h := createSplatMesh_error (w.showLoading.createObjectURL file).1
      (w.showLoading.createObjectURL file).2 error hs
    simp only [Page.loadSplatFile, Page.loadSplatFileStart, h.2.2.1, Page.resume,
      Page.showError, Page.consoleError, Page.status]
    exact ⟨h.1, h.2.1, by simp, by decide⟩

/-- C3 fails as stated: on the page that displays the asset of `butterfly.spz`, a
load whose mesh construction fails leaves the scene without any splat mesh, so the
asset attached before the load is not attached afterwards. -/
theorem load_failure_detaches_previous :
    splatHandles demoPageLoaded.viewer.scene = [⟨0, "butterfly.spz", ⟨1, 0, 0, 0⟩, ⟨0, 0, 0⟩⟩] ∧
    splatHandles (demoPageLoaded.loadSplatFromUrl "next.spz"
      (Except.error "construction failed")).viewer.scene = [] ∧
    Object3D.splat ⟨0, "butterfly.spz", ⟨1, 0, 0, 0⟩, ⟨0, 0, 0⟩⟩ ∉
      (demoPageLoaded.loadSplatFromUrl "next.spz" (Except.error "construction failed")).viewer.scene := by
  simp [demoPageLoaded, demoPage, Page.initial, SplatViewer.initial, Page.loadSplatFromUrl,
    Page.loadSplatFromUrlStart, Page.createSplatMesh, Page.showLoading, Page.resume,
    Page.hideLoading, Page.showError, Page.consoleError, SplatViewer.resetCamera, sceneAdd,
    sceneRemove, splatHandles, Quaternion.set, Vector3.set, Quaternion.identity, Vector3.zero]

/-- C6 at the failing input: on the initial page `loadSplatFile` with a file whose
mesh construction throws ends with the object URL `blob:0` still live and never
revoked, while the same call with a successful construction ends with no live
object URL, as before the call. -/
theorem loadSplatFile_failure_keeps_object_url :
    demoPage.objectUrls = [] ∧
    (demoPage.loadSplatFile (some ⟨"scene.spz"⟩) (Except.error "construction failed")).objectUrls =
      ["blob:0"] ∧
    Call.revokeObjectURL "blob:0" ∉
      (demoPage.loadSplatFile (some ⟨"scene.spz"⟩) (Except.error "construction failed")).calls ∧
    (demoPage.loadSplatFile (some ⟨"scene.spz"⟩) (Except.ok ())).objectUrls = [] := by
  simp [demoPage, Page.initial, SplatViewer.initial, Page.loadSplatFile,
    Page.loadSplatFileStart, Page.createSplatMesh, Page.showLoading, Page.resume,
    Page.hideLoading, Page.showError, Page.consoleError, Page.createObjectURL,
    Page.revokeObjectURL, SplatViewer.resetCamera]
  decide

end LoadFailure

section LoadOrder

variable {α : Type} [LinearOrderedField α]

/-- Issuing a successful load makes a new mesh current at once and suspends one continuation. -/
theorem issue_viewer (w : Page α) (hw : w.Consistent) (r : LoadRequest)
    (hr : r.succeeds = true) (pending : List Suspended) :
    ∃ (p : Page α) (k : Suspended) (url : String),
      Session.turn ⟨w, pending⟩ (Turn.issue r) = ⟨p, pending ++ [k]⟩ ∧
      p.Consistent ∧
      p.viewer.splatMesh = some ⟨w.nextObjectId, url, ⟨1, 0, 0, 0⟩, ⟨0, 0, 0⟩⟩ ∧
      p.nextObjectId = w.nextObjectId + 1 ∧
      (∀ u c, r = LoadRequest.url u c → url = u) := by
  rcases r with ⟨u, (e | c)⟩ | ⟨f, (e | c)⟩
  · simp [LoadRequest.succeeds] at hr
  · have hs : w.showLoading.Consistent := hw
    have h := createSplatMesh_ok_consistent w.showLoading u hs
    refine ⟨(w.showLoading.createSplatMesh u (Except.ok ())).1, _, u, rfl, h.1, h.2.1, h.2.2, ?_⟩
    intro u' c' heq
    cases heq
    rfl
  · simp [LoadRequest.succeeds] at hr
  · have hs : (w.showLoading.createObjectURL f).1.Consistent := hw
    have h := createSplatMesh_ok_consistent (w.showLoading.createObjectURL f).1
      (w.showLoading.createObjectURL f).2 hs
    refine ⟨((w.showLoading.createObjectURL f).1.createSplatMesh
      (w.showLoading.createObjectURL f).2 (Except.ok ())).1, _,
      (w.showLoading.createObjectURL f).2, rfl, h.1, h.2.1, h.2.2, ?_⟩
    intro u' c' heq
    cases heq

/-- Completing the suspended load at index `k` runs its continuation and drops it from the list. -/
theorem turn_complete (p : Page α) (pending : List Suspended) (k : Nat) (susp : Suspended)
    (h : pending.get? k = some susp) :
    Session.turn ⟨p, pending⟩ (Turn.complete k) = ⟨p.resume susp, pending.eraseIdx k⟩ := by
  simp only [Session.turn, h]

/-- C5: for every two successful loads A and B with B issued after A, started on a
page whose scene holds just the current mesh, and for each order of the remaining
turns (A completes before B is issued, A completes before B, B completes before
A), once both have completed no load is suspended, `this.splatMesh` is the mesh B
constructed (the second object created, with the url of B for a url load), the
scene holds that mesh and no other splat mesh, and the mesh A constructed is
neither `this.splatMesh` nor in the scene. -/
theorem later_load_displayed (w : Page α) (hw : w.Consistent) (a b : LoadRequest)
    (ha : a.succeeds = true) (hb : b.succeeds = true) (turns : List Turn)
    (hturns : turns = [Turn.issue a, Turn.complete 0, Turn.issue b, Turn.complete 0] ∨
      turns = [Turn.issue a, Turn.issue b, Turn.complete 0, Turn.complete 0] ∨
      turns = [Turn.issue a, Turn.issue b, Turn.complete 1, Turn.complete 0]) :
    (Session.run ⟨w, []⟩ turns).suspended = [] ∧
    ∃ meshA meshB : SplatMesh α,
      (Session.turn ⟨w, []⟩ (Turn.issue a)).page.viewer.splatMesh = some meshA ∧
      meshA.id = w.nextObjectId ∧
      meshB.id = w.nextObjectId + 1 ∧
      (∀ url construct, b = LoadRequest.url url construct → meshB.url = url) ∧
      (Session.run ⟨w, []⟩ turns).page.viewer.splatMesh = some meshB ∧
      splatHandles (Session.run ⟨w, []⟩ turns).page.viewer.scene = [meshB] ∧
      meshA ≠ meshB ∧
      Object3D.splat meshA ∉ (Session.run ⟨w, []⟩ turns).page.viewer.scene := by
  obtain ⟨pa, ka, urlA, hta, hpa, hma, hna, -⟩ := issue_viewer w hw a ha []
  have hmem : ∀ (p : Page α) (meshB : SplatMesh α), p.Consistent →
      p.viewer.splatMesh = some meshB → meshB.id = w.nextObjectId + 1 →
      splatHandles p.viewer.scene = [meshB] ∧
      (⟨w.nextObjectId, urlA, ⟨1, 0, 0, 0⟩, ⟨0, 0, 0⟩⟩ : SplatMesh α) ≠ meshB ∧
      Object3D.splat ⟨w.nextObjectId, urlA, ⟨1, 0, 0, 0⟩, ⟨0, 0, 0⟩⟩ ∉ p.viewer.scene := by
    intro p meshB hp hm hid
    have hh : splatHandles p.viewer.scene = [meshB] := by
      rw [hp, hm]
      rfl
    have hne : (⟨w.nextObjectId, urlA, ⟨1, 0, 0, 0⟩, ⟨0, 0, 0⟩⟩ : SplatMesh α) ≠ meshB := by
      intro heq
      rw [← heq] at hid
      simp at hid
    refine ⟨hh, hne, ?_⟩
    intro hin
    have : (⟨w.nextObjectId, urlA, ⟨1, 0, 0, 0⟩, ⟨0, 0, 0⟩⟩ : SplatMesh α) ∈
        splatHandles p.viewer.scene := by
      unfold splatHandles
      rw [List.mem_filterMap]
      exact ⟨_, hin, rfl⟩
    rw [hh, List.mem_singleton] at this
    exact hne this
  rcases hturns with h | h | h
  · subst h
    obtain ⟨hv1, hn1, hc1⟩ := resume_viewer pa ka
    obtain ⟨pb, kb, urlB, htb, hpb, hmb, hnb, hub⟩ :=
      issue_viewer (pa.resume ka) (hc1 hpa) b hb []
    obtain ⟨hv2, hn2, hc2⟩ := resume_viewer pb kb
    have e1 : Session.turn ⟨pa, [] ++ [ka]⟩ (Turn.complete 0) = ⟨pa.resume ka, []⟩ :=
      turn_complete pa ([] ++ [ka]) 0 ka rfl
    have e2 : Session.turn ⟨pb, [] ++ [kb]⟩ (Turn.complete 0) = ⟨pb.resume kb, []⟩ :=
      turn_complete pb ([] ++ [kb]) 0 kb rfl
    have hrun : Session.run ⟨w, []⟩
        [Turn.issue a, Turn.complete 0, Turn.issue b, Turn.complete 0] = ⟨pb.resume kb, []⟩ := by
      simp only [Session.run, List.foldl_cons, List.foldl_nil, hta, e1, htb, e2]
    have hidB : (⟨(pa.resume ka).nextObjectId, urlB, ⟨1, 0, 0, 0⟩, ⟨0, 0, 0⟩⟩ : SplatMesh α).id =
        w.nextObjectId + 1 := by
      simp [hn1, hna]
    have hfin := hmem (pb.resume kb) _ (hc2 hpb) (by rw [hv2]; exact hmb) hidB
    rw [hrun, hta]
    exact ⟨rfl, _, _, hma, rfl, hidB, hub, by rw [hv2]; exact hmb, hfin.1, hfin.2.1, hfin.2.2⟩
  · subst h
    obtain ⟨pb, kb, urlB, htb, hpb, hmb, hnb, hub⟩ := issue_viewer pa hpa b hb ([] ++ [ka])
    obtain ⟨hv1, hn1, hc1⟩ := resume_viewer pb ka
    obtain ⟨hv2, hn2, hc2⟩ := resume_viewer (pb.resume ka) kb
    have e1 : Session.turn ⟨pb, [] ++ [ka] ++ [kb]⟩ (Turn.complete 0) = ⟨pb.resume ka, [kb]⟩ :=
      turn_complete pb ([] ++ [ka] ++ [kb]) 0 ka rfl
    have e2 : Session.turn ⟨pb.resume ka, [kb]⟩ (Turn.complete 0) =
        ⟨(pb.resume ka).resume kb, []⟩ :=
      turn_complete (pb.resume ka) [kb] 0 kb rfl
    have hrun : Session.run ⟨w, []⟩
        [Turn.issue a, Turn.issue b, Turn.complete 0, Turn.complete 0] =
        ⟨(pb.resume ka).resume kb, []⟩ := by
      simp only [Session.run, List.foldl_cons, List.foldl_nil, hta, htb, e1, e2]
    have hidB : (⟨pa.nextObjectId, urlB, ⟨1, 0, 0, 0⟩, ⟨0, 0, 0⟩⟩ : SplatMesh α).id =
        w.nextObjectId + 1 := by
      simp [hna]
    have hmf : ((pb.resume ka).resume kb).viewer.splatMesh =
        some ⟨pa.nextObjectId, urlB, ⟨1, 0, 0, 0⟩, ⟨0, 0, 0⟩⟩ := by
      rw [hv2, hv1]
      exact hmb
    have hfin := hmem ((pb.resume ka).resume kb) _ (hc2 (hc1 hpb)) hmf hidB
    rw [hrun, hta]
    exact ⟨rfl, _, _, hma, rfl, hidB, hub, hmf, hfin.1, hfin.2.1, hfin.2.2⟩
  · subst h
    obtain ⟨pb, kb, urlB, htb, hpb, hmb, hnb, hub⟩ := issue_viewer pa hpa b hb ([] ++ [ka])
    obtain ⟨hv1, hn1, hc1⟩ := resume_viewer pb kb
    obtain ⟨hv2, hn2, hc2⟩ := resume_viewer (pb.resume kb) ka
    have e1 : Session.turn ⟨pb, [] ++ [ka] ++ [kb]⟩ (Turn.complete 1) = ⟨pb.resume kb, [ka]⟩ :=
      turn_complete pb ([] ++ [ka] ++ [kb]) 1 kb rfl
    have e2 : Session.turn ⟨pb.resume kb, [ka]⟩ (Turn.complete 0) =
        ⟨(pb.resume kb).resume ka, []⟩ :=
      turn_complete (pb.resume kb) [ka] 0 ka rfl
    have hrun : Session.run ⟨w, []⟩
        [Turn.issue a, Turn.issue b, Turn.complete 1, Turn.complete 0] =
        ⟨(pb.resume kb).resume ka, []⟩ := by
      simp only [Session.run, List.foldl_cons, List.foldl_nil, hta, htb, e1, e2]
    have hidB : (⟨pa.nextObjectId, urlB, ⟨1, 0, 0, 0⟩, ⟨0, 0, 0⟩⟩ : SplatMesh α).id =
        w.nextObjectId + 1 := by
      simp [hna]
    have hmf : ((pb.resume kb).resume ka).viewer.splatMesh =
        some ⟨pa.nextObjectId, urlB, ⟨1, 0, 0, 0⟩, ⟨0, 0, 0⟩⟩ := by
      rw [hv2, hv1]
      exact hmb
    have hfin := hmem ((pb.resume kb).resume ka) _ (hc2 (hc1 hpb)) hmf hidB
    rw [hrun, hta]
    exact ⟨rfl, _, _, hma, rfl, hidB, hub, hmf, hfin.1, hfin.2.1, hfin.2.2⟩

end LoadOrder

section Normalization

end Normalization

section Orientation

end Orientation

section Displacement

end Displacement

section ConcreteViews

end ConcreteViews

section Witnesses

/-- Witness of C1: the initial view with the button down, dragged a million pixels
down and then two million pixels up. -/
theorem onMouseMove_pitch_clamped_witness :
    (-Real.pi / 2 ≤ ((SplatViewer.initial : SplatViewer ℝ).mouseDown ⟨0, 0⟩).pitch ∧
      ((SplatViewer.initial : SplatViewer ℝ).mouseDown ⟨0, 0⟩).pitch ≤ Real.pi / 2) ∧
    (-Real.pi / 2 ≤ ((((SplatViewer.initial : SplatViewer ℝ).mouseDown ⟨0, 0⟩).onMouseMove
        ⟨Real.pi, Real.sqrt, Real.sin, Real.cos⟩ ⟨0, 1000000⟩).onMouseMove
        ⟨Real.pi, Real.sqrt, Real.sin, Real.cos⟩ ⟨0, -1000000⟩).pitch ∧
      ((((SplatViewer.initial : SplatViewer ℝ).mouseDown ⟨0, 0⟩).onMouseMove
        ⟨Real.pi, Real.sqrt, Real.sin, Real.cos⟩ ⟨0, 1000000⟩).onMouseMove
        ⟨Real.pi, Real.sqrt, Real.sin, Real.cos⟩ ⟨0, -1000000⟩).pitch ≤ Real.pi / 2) := by
  have hpi := Real.pi_pos
  have hs : -Real.pi / 2 ≤ ((SplatViewer.initial : SplatViewer ℝ).mouseDown ⟨0, 0⟩).pitch ∧
      ((SplatViewer.initial : SplatViewer ℝ).mouseDown ⟨0, 0⟩).pitch ≤ Real.pi / 2 := by
    simp only [SplatViewer.mouseDown, SplatViewer.initial]
    exact ⟨by rw [neg_div]; linarith, by linarith⟩
  exact ⟨hs, (onMouseMove_pitch_clamped ⟨Real.pi, Real.sqrt, Real.sin, Real.cos⟩ _ hs
    [⟨0, 1000000⟩, ⟨0, -1000000⟩] _ (by simp [List.scanl])).1⟩

/-- On `demoPageLoaded` the scene holds the current mesh and no other. -/
theorem demoPageLoaded_consistent : demoPageLoaded.Consistent := by
  simp [Page.Consistent, demoPageLoaded, demoPage, Page.initial, SplatViewer.initial,
    Page.loadSplatFromUrl, Page.loadSplatFromUrlStart, Page.createSplatMesh, Page.showLoading,
    Page.resume, Page.hideLoading, SplatViewer.resetCamera, sceneAdd, splatHandles]

/-- Witness of C3: a failing load from a url on the page that displays
`butterfly.spz`. -/
theorem load_failure_state_witness :
    demoPageLoaded.Consistent ∧
    (demoPageLoaded.loadSplatFromUrl "next.spz" (Except.error "construction failed")).status =
      Status.error "Failed to load from URL" :=
  ⟨demoPageLoaded_consistent, (load_failure_state demoPageLoaded demoPageLoaded_consistent
    "next.spz" ⟨"scene.spz"⟩ "construction failed").1.2.2.1⟩

/-- Witness of C4: two successful `createSplatMesh` calls on the initial page. -/
theorem createSplatMesh_single_handle_witness :
    demoPage.viewer = SplatViewer.initial ∧
    splatHandles (["butterfly.spz", "next.spz"].foldl
      (fun (p : Page ℚ) url => (p.createSplatMesh url (Except.ok ())).1) demoPage).viewer.scene =
      (["butterfly.spz", "next.spz"].foldl
      (fun (p : Page ℚ) url => (p.createSplatMesh url (Except.ok ())).1)
        demoPage).viewer.splatMesh.toList :=
  ⟨rfl, (createSplatMesh_single_handle demoPage rfl ["butterfly.spz", "next.spz"]).2.1⟩

/-- Witness of C5: a url load A and a file load B issued after it, B completing
before A. -/
theorem later_load_displayed_witness :
    (Session.run ⟨demoPage, []⟩
      [Turn.issue (LoadRequest.url "butterfly.spz" (Except.ok ())),
        Turn.issue (LoadRequest.file ⟨"scene.spz"⟩ (Except.ok ())),
        Turn.complete 1, Turn.complete 0]).suspended = [] :=
  (later_load_displayed demoPage (by simp [Page.Consistent, demoPage, Page.initial,
      SplatViewer.initial, splatHandles])
    (LoadRequest.url "butterfly.spz" (Except.ok ()))
    (LoadRequest.file ⟨"scene.spz"⟩ (Except.ok ())) rfl rfl _ (Or.inr (Or.inr rfl))).1

end Witnesses

end Splats
